import Mathlib

/-!
Verification of `fonduer/meta.py`.

A shallow embedding of the `Meta` connection registry from `src/fonduer/meta.py`.

The Python module keeps process-wide mutable class variables; here the class
state is an explicit record (`Meta`) and every operation takes and returns the
state.  Exceptions (`ValueError`, the spec's `ConfigurationError`) become
`Except String`, carrying the exact message the Python code raises.  The side
effects performed against the database library (`create_engine`,
`Base.metadata.create_all`) are recorded in an event trace (`DbEvent`), so
"constructs no engine" and "issues no DDL" are provable statements.

The standard-library call `urllib.parse.urlparse` is modelled over `List Char`
(structural recursion, so every proof can be discharged by evaluation),
including its error paths.  The model follows CPython's `urlsplit`/`urlparse`:
scheme split at the first `:` when the candidate scheme is alphanumeric-ish and
starts with a letter (lower-cased); netloc after `//` up to `/`, `?` or `#`,
raising `ValueError("Invalid IPv6 URL")` when the netloc contains `[` without
`]` or vice versa; fragment then query stripped from the path; `;parameters`
split out of the last path segment; username/password before the last `@` of
the netloc.  The raw port text sits after the host's `:`; reading the `.port`
PROPERTY — which `Meta.init` does at the `Meta.DBPORT = url.port` assignment —
raises `ValueError` when the text cannot be cast to an integer or the value is
out of the range 0-65535, exactly as CPython ≥ 3.6 does; this is modelled by
`UrlParts.port : Except String (Option Nat)`.  Not modelled: `int()`'s
acceptance of surrounding whitespace and `_` digit separators (such port texts
are treated as cast errors, making hypotheses of the form
`UrlParts.port u = Except.ok p` unsatisfiable there rather than wrong), and the
NFKC netloc check of `_checknetloc` (non-ASCII input).
-/

/-- Components of a parsed URL as returned by `urllib.parse.urlparse`.
`portStr` is the raw port text kept by `_hostinfo` (`none` when absent or
empty); the validating `.port` property is `UrlParts.port` below. -/
structure UrlParts where
  scheme : String
  netloc : String
  path : String
  username : Option String
  password : Option String
  portStr : Option String
deriving Repr, DecidableEq

/-- Split a character list at the first occurrence of `c`:
`some (before, after)` with the delimiter removed, `none` if `c` is absent. -/
def splitOnFirst (c : Char) : List Char → Option (List Char × List Char)
  | [] => none
  | x :: xs =>
    if x = c then some ([], xs)
    else
      match splitOnFirst c xs with
      | none => none
      | some (a, b) => some (x :: a, b)

/-- Split a character list at the last occurrence of `c` (Python
`str.rpartition`, delimiter removed). -/
def splitOnLast (c : Char) (l : List Char) : Option (List Char × List Char) :=
  match splitOnFirst c l.reverse with
  | none => none
  | some (a, b) => some (b.reverse, a.reverse)

/-- Take characters until one of `stops` is hit; the stop character stays at
the head of the remainder (CPython `_splitnetloc`). -/
def takeUntilAny (stops : List Char) : List Char → List Char × List Char
  | [] => ([], [])
  | x :: xs =>
    if stops.contains x then ([], x :: xs)
    else
      let (a, b) := takeUntilAny stops xs
      (x :: a, b)

/-- Characters CPython admits in a URL scheme (`scheme_chars`). -/
def isSchemeChar (c : Char) : Bool :=
  c.isAlpha || c.isDigit || c = '+' || c = '-' || c = '.'

/-- CPython's scheme split: the part before the first `:` is the scheme when
it is non-empty, starts with an ASCII letter and is all scheme characters; it
is lower-cased.  Returns `(scheme, rest-of-url)`. -/
def splitScheme (l : List Char) : List Char × List Char :=
  match splitOnFirst ':' l with
  | none => ([], l)
  | some (bef, aft) =>
    match bef with
    | [] => ([], l)
    | c :: _ =>
      if c.isAlpha && bef.all isSchemeChar then
        (bef.map Char.toLower, aft)
      else
        ([], l)

/-- Base-10 digit accumulation; `none` on a non-digit character. -/
def digitsToNatAux : List Char → Nat → Option Nat
  | [], acc => some acc
  | c :: cs, acc =>
    if c.isDigit then digitsToNatAux cs (acc * 10 + (c.toNat - 48))
    else none

/-- A non-empty all-digit run parsed in base 10, else `none`. -/
def digitsToNat? (l : List Char) : Option Nat :=
  match l with
  | [] => none
  | _ => digitsToNatAux l 0

/-- Model of Python `int(text, 10)` on the port text: an optional single sign
followed by digits (whitespace and `_` separators are not modelled and count
as cast failures).  `none` models the `ValueError` of a failed cast. -/
def pyInt? : List Char → Option Int
  | [] => none
  | '+' :: rest => (digitsToNat? rest).map Int.ofNat
  | '-' :: rest => (digitsToNat? rest).map (fun n => -(n : Int))
  | l => (digitsToNat? l).map Int.ofNat

/-- `username`/`password` of a netloc: the userinfo is everything before the
last `@`; within it, the part before the first `:` is the username and the
part after it (when present) the password. -/
def userinfoOf (netloc : List Char) : Option String × Option String :=
  match splitOnLast '@' netloc with
  | none => (none, none)
  | some (userinfo, _) =>
    match splitOnFirst ':' userinfo with
    | none => (some (String.mk userinfo), none)
    | some (u, p) => (some (String.mk u), some (String.mk p))

/-- The raw port text of a netloc (CPython `_hostinfo`): after the last `@`,
with a bracketed IPv6 host the text after `]` and its `:`, otherwise the text
after the host's first `:`; empty becomes `none`. -/
def portStrOf (netloc : List Char) : Option String :=
  let hostinfo :=
    match splitOnLast '@' netloc with
    | none => netloc
    | some (_, h) => h
  let portChars :=
    match splitOnFirst '[' hostinfo with
    | some (_, bracketed) =>
      match splitOnFirst ']' bracketed with
      | some (_, afterBr) =>
        match splitOnFirst ':' afterBr with
        | some (_, p) => p
        | none => []
      | none => []
    | none =>
      match splitOnFirst ':' hostinfo with
      | some (_, p) => p
      | none => []
  match portChars with
  | [] => none
  | l => some (String.mk l)

/-- CPython `urlparse` splits `;parameters` out of the last segment of the
path. -/
def splitparams (l : List Char) : List Char :=
  if l.contains '/' then
    match splitOnLast '/' l with
    | some (bef, aft) =>
      match splitOnFirst ';' aft with
      | none => l
      | some (a, _) => bef ++ '/' :: a
    | none => l
  else
    match splitOnFirst ';' l with
    | none => l
    | some (a, _) => a

/-- Model of `urllib.parse.urlparse`, restricted to the components `Meta.init`
reads.  Raises (`Except.error`) exactly where CPython's `urlsplit` does for
the inputs in scope: `"Invalid IPv6 URL"` when the netloc holds `[` without
`]` or `]` without `[`. -/
def urlparse (s : String) : Except String UrlParts :=
  let (scheme, rest) := splitScheme s.data
  let (netloc, rest2) :=
    if rest.take 2 = ['/', '/'] then
      takeUntilAny ['/', '?', '#'] (rest.drop 2)
    else
      ([], rest)
  if (netloc.contains '[' && !netloc.contains ']') ||
     (netloc.contains ']' && !netloc.contains '[') then
    Except.error "Invalid IPv6 URL"
  else
    let beforeFrag := (takeUntilAny ['#'] rest2).1
    let beforeQuery := (takeUntilAny ['?'] beforeFrag).1
    let path := splitparams beforeQuery
    let (username, password) := userinfoOf netloc
    Except.ok
      { scheme := String.mk scheme
        netloc := String.mk netloc
        path := String.mk path
        username := username
        password := password
        portStr := portStrOf netloc }

/-- The `ParseResult.port` property (CPython ≥ 3.6): `None` when no port text;
otherwise cast with `int(..., 10)` — raising
`"Port could not be cast to integer value as '<text>'"` on failure — and
range-checked, raising `"Port out of range 0-65535"`. -/
def UrlParts.port (u : UrlParts) : Except String (Option Nat) :=
  match u.portStr with
  | none => Except.ok none
  | some ps =>
    match pyInt? ps.data with
    | none =>
      Except.error ("Port could not be cast to integer value as '" ++ ps ++ "'")
    | some i =>
      if 0 ≤ i ∧ i ≤ 65535 then Except.ok (some i.toNat)
      else Except.error "Port out of range 0-65535"

/-- Python `str.startswith`, evaluated on the underlying character lists. -/
def pyStartsWith (s p : String) : Bool :=
  p.data.isPrefixOf s.data

/-- Python slice `s[1:]`. -/
def pyDropFirst (s : String) : String :=
  String.mk (s.data.drop 1)

/-- Whether a connection string parses without error AND carries a
postgres-family scheme.  Strings on which `urlparse` raises count as
non-postgres (their scheme is never examined by anyone). -/
def schemeIsPostgres (s : String) : Bool :=
  match urlparse s with
  | Except.ok u => pyStartsWith u.scheme "postgres"
  | Except.error _ => false

/-- A sqlalchemy engine, reduced to what `create_engine` receives from this
module: the connection URL and the isolation level. -/
structure Engine where
  url : Option String
  isolation_level : String
deriving Repr, DecidableEq

/-- A sqlalchemy sessionmaker: `sessionmaker(bind=engine)` keeps the engine in
its keyword arguments (`Session.kw["bind"]`). -/
structure Sessionmaker where
  bind : Engine
deriving Repr, DecidableEq

/-- Observable calls into the sqlalchemy library: engine construction and the
schema-creation DDL of `Base.metadata.create_all`. -/
inductive DbEvent where
  | createEngine (url : Option String) (isolation_level : String)
  | createAll (engine : Option Engine)
deriving Repr, DecidableEq

/-- The class-level state of `Meta` in `meta.py` (`Base` is not part of the
state model; `create_all` against it is the `DbEvent.createAll` event). -/
structure Meta where
  conn_string : Option String
  DBNAME : Option String
  DBUSER : Option String
  DBPWD : Option String
  DBPORT : Option Nat
  Session : Option Sessionmaker
  engine : Option Engine
  postgres : Bool
  ready : Bool
deriving Repr, DecidableEq

/-- The state the class variables hold at import time. -/
def Meta.initial : Meta :=
  { conn_string := none
    DBNAME := none
    DBUSER := none
    DBPWD := none
    DBPORT := none
    Session := none
    engine := none
    postgres := false
    ready := false }

/-- The `ValueError` message of `new_sessionmaker`. -/
def sessionmakerErrMsg : String :=
  "Meta variables have not been initialized with a postgres connection string."

/-- The `ValueError` message of the dead branch at the end of `Meta.init`. -/
def notValidErrMsg (conn_string : String) : String :=
  conn_string ++ " is not a valid postgres connection string."

/-- The `ValueError` message of `Meta._init_db`. -/
def initDbErrMsg : String :=
  "The Meta variables haven't been initialized."

/-- `new_sessionmaker` from `meta.py`: guarded by `Meta.postgres and
Meta.ready`, it creates an AUTOCOMMIT engine from `Meta.conn_string` and
returns a sessionmaker bound to it; otherwise it raises.  It never mutates the
class state, so it returns only the result and the event trace. -/
def new_sessionmaker (g : Meta) : Except String Sessionmaker × List DbEvent :=
  if g.postgres = true ∧ g.ready = true then
    let engine : Engine := { url := g.conn_string, isolation_level := "AUTOCOMMIT" }
    (Except.ok { bind := engine }, [DbEvent.createEngine g.conn_string "AUTOCOMMIT"])
  else
    (Except.error sessionmakerErrMsg, [])

/-- `Meta._init_db` from `meta.py`: when `ready`, run
`Base.metadata.create_all(Meta.engine)`; otherwise raise.  State is not
mutated. -/
def Meta.init_db (g : Meta) : Except String Unit × List DbEvent :=
  if g.ready = true then
    (Except.ok (), [DbEvent.createAll g.engine])
  else
    (Except.error initDbErrMsg, [])

instance {ε α : Type} [DecidableEq ε] [DecidableEq α] : DecidableEq (Except ε α) :=
  fun a b =>
    match a, b with
    | Except.ok x, Except.ok y =>
      if h : x = y then isTrue (by rw [h]) else isFalse (by simp [h])
    | Except.error e, Except.error f =>
      if h : e = f then isTrue (by rw [h]) else isFalse (by simp [h])
    | Except.ok _, Except.error _ => isFalse (by simp)
    | Except.error _, Except.ok _ => isFalse (by simp)

/-- Outcome of `Meta.init`: the class state after the call (Python retains the
mutations already made when an exception is raised), the result (`ok ()` models
`return cls`), and the library-call trace. -/
structure InitResult where
  state : Meta
  result : Except String Unit
  events : List DbEvent
deriving Repr, DecidableEq

/-- `Meta.init` from `meta.py`, line by line.  The guard
`if conn_string and not Meta.ready` runs the body only for a truthy (non-`None`,
non-empty) string on a not-ready registry; otherwise the call just returns
`cls`.  The body calls `urlparse` (which may raise `Invalid IPv6 URL`, before
any assignment), stores `conn_string`, `DBNAME = url.path[1:]`, `DBUSER`,
`DBPWD`, then reads the raising `url.port` property into `DBPORT` (an
exception here keeps the four assignments already made and the PRIOR `DBPORT`,
`postgres`, `ready`), sets `postgres = url.scheme.startswith("postgres")` and
`ready = postgres`, then calls `new_sessionmaker()` (which raises when
`postgres` is false), stores the sessionmaker and its bound engine, and
finally either runs `_init_db` (when `ready`) or raises the not-valid
message. -/
def Meta.init (g : Meta) (conn_string : Option String) : InitResult :=
  match conn_string with
  | none => { state := g, result := Except.ok (), events := [] }
  | some s =>
    if s = "" ∨ g.ready = true then
      { state := g, result := Except.ok (), events := [] }
    else
      match urlparse s with
      | Except.error e => { state := g, result := Except.error e, events := [] }
      | Except.ok url =>
        let ga : Meta :=
          { g with
            conn_string := some s
            DBNAME := some (pyDropFirst url.path)
            DBUSER := url.username
            DBPWD := url.password }
        match url.port with
        | Except.error e => { state := ga, result := Except.error e, events := [] }
        | Except.ok p =>
          let g1 : Meta :=
            { ga with
              DBPORT := p
              postgres := pyStartsWith url.scheme "postgres" }
          let g2 : Meta := { g1 with ready := g1.postgres }
          match new_sessionmaker g2 with
          | (Except.error e, evs) =>
            { state := g2, result := Except.error e, events := evs }
          | (Except.ok sm, evs) =>
            let g3 : Meta := { g2 with Session := some sm, engine := some sm.bind }
            if g3.ready = true then
              match Meta.init_db g3 with
              | (Except.ok _, evs2) =>
                { state := g3, result := Except.ok (), events := evs ++ evs2 }
              | (Except.error e, evs2) =>
                { state := g3, result := Except.error e, events := evs ++ evs2 }
            else
              { state := g3, result := Except.error (notValidErrMsg s), events := evs }

/-- The spec's invariant: `engine` and `sessionFactory` exist if and only if
`ready` is true. -/
def MetaInv (g : Meta) : Prop :=
  (g.engine.isSome = true ↔ g.ready = true) ∧
  (g.Session.isSome = true ↔ g.ready = true)

instance (g : Meta) : Decidable (MetaInv g) := by
  unfold MetaInv
  infer_instance

/-! ## Evaluation lemmas for `Meta.init` -/

/-- A string whose parse succeeds with a postgres-family scheme is
non-empty (the empty string parses with scheme `""`). -/
theorem ne_empty_of_postgres_scheme (s : String) (u : UrlParts)
    (hu : urlparse s = Except.ok u)
    (hp : pyStartsWith u.scheme "postgres" = true) : ¬ s = "" := by
  intro he
  subst he
  rw [show urlparse "" = Except.ok
        { scheme := "", netloc := "", path := "", username := none,
          password := none, portStr := none } from rfl] at hu
  cases hu
  exact absurd hp (by decide)

/-- Running `Meta.init` on a not-ready registry with a truthy string on which
`urlparse` raises: the exception propagates before any assignment, so the
state is untouched and no library call happens. -/
theorem Meta.init_run_urlparse_err (g : Meta) (s : String) (e : String)
    (hs : ¬ s = "") (hr : g.ready = false)
    (hu : urlparse s = Except.error e) :
    Meta.init g (some s) = { state := g, result := Except.error e, events := [] } := by
  simp [Meta.init, hs, hr, hu]

/-- Running `Meta.init` on a not-ready registry with a truthy string that
parses but whose `.port` property raises: `conn_string`, `DBNAME`, `DBUSER`
and `DBPWD` are already overwritten, `DBPORT` and the flags keep their prior
values, and no library call happens. -/
theorem Meta.init_run_port_err (g : Meta) (s : String) (u : UrlParts) (e : String)
    (hs : ¬ s = "") (hr : g.ready = false)
    (hu : urlparse s = Except.ok u)
    (hport : UrlParts.port u = Except.error e) :
    Meta.init g (some s) =
      { state :=
          { g with
            conn_string := some s
            DBNAME := some (pyDropFirst u.path)
            DBUSER := u.username
            DBPWD := u.password }
        result := Except.error e
        events := [] } := by
  simp [Meta.init, hs, hr, hu, hport]

/-- Running `Meta.init` on a not-ready registry with a string that parses,
whose port reads fine, and whose scheme starts with `postgres`: all fields are
stored, the flags are set, one AUTOCOMMIT engine is created and the schema DDL
is issued. -/
theorem Meta.init_run_pg (g : Meta) (s : String) (u : UrlParts) (p : Option Nat)
    (hs : ¬ s = "") (hr : g.ready = false)
    (hu : urlparse s = Except.ok u)
    (hport : UrlParts.port u = Except.ok p)
    (hp : pyStartsWith u.scheme "postgres" = true) :
    Meta.init g (some s) =
      { state :=
          { g with
            conn_string := some s
            DBNAME := some (pyDropFirst u.path)
            DBUSER := u.username
            DBPWD := u.password
            DBPORT := p
            postgres := true
            ready := true
            Session := some { bind := { url := some s, isolation_level := "AUTOCOMMIT" } }
            engine := some { url := some s, isolation_level := "AUTOCOMMIT" } }
        result := Except.ok ()
        events := [DbEvent.createEngine (some s) "AUTOCOMMIT",
                   DbEvent.createAll (some { url := some s, isolation_level := "AUTOCOMMIT" })] } := by
  simp [Meta.init, hs, hr, hu, hport, new_sessionmaker, Meta.init_db, hp]

/-- Running `Meta.init` on a not-ready registry with a string that parses,
whose port reads fine, but whose scheme is not postgres-family: the parsed
fields are stored, the flags are set to false, `new_sessionmaker` raises, and
no library call happens. -/
theorem Meta.init_run_nonpg (g : Meta) (s : String) (u : UrlParts) (p : Option Nat)
    (hs : ¬ s = "") (hr : g.ready = false)
    (hu : urlparse s = Except.ok u)
    (hport : UrlParts.port u = Except.ok p)
    (hp : pyStartsWith u.scheme "postgres" = false) :
    Meta.init g (some s) =
      { state :=
          { g with
            conn_string := some s
            DBNAME := some (pyDropFirst u.path)
            DBUSER := u.username
            DBPWD := u.password
            DBPORT := p
            postgres := false
            ready := false }
        result := Except.error sessionmakerErrMsg
        events := [] } := by
  simp [Meta.init, hs, hr, hu, hport, new_sessionmaker, Meta.init_db, hp]

/-- `new_sessionmaker`'s message can never coincide with the message of
`Meta.init`'s own invalid-connection-string branch, for any connection
string: the two fixed suffixes differ. -/
theorem sessionmakerErrMsg_ne_notValidErrMsg (s : String) :
    sessionmakerErrMsg ≠ notValidErrMsg s := by
  intro h
  have hd : sessionmakerErrMsg.data
      = s.data ++ (" is not a valid postgres connection string." : String).data := by
    rw [h, notValidErrMsg, String.data_append]
  have hsuf : (" is not a valid postgres connection string." : String).data
      <:+ sessionmakerErrMsg.data := ⟨s.data, hd.symm⟩
  exact absurd hsuf (by decide)

/-! ## Claims -/

/-- C1 (counterexample): the claim quantifies over every connection string
with a non-postgres scheme, but the empty string has scheme `""` (not
postgres) and yet `Meta.init` on the unready initial registry raises nothing:
the truthiness guard `if conn_string and not Meta.ready` skips the body and
returns `cls`. -/
theorem init_empty_string_no_error :
    schemeIsPostgres "" = false ∧
    Meta.initial.ready = false ∧
    (Meta.init Meta.initial (some "")).result = Except.ok () := by
  refine ⟨by decide, rfl, rfl⟩

/-- C1 (amended): for every NON-EMPTY connection string that does not parse
to a postgres-family scheme — whether the scheme is something else, or
`urlparse`/the port read raises first — `Meta.init` on a not-ready registry
raises a `ConfigurationError` (`ValueError`) and the `ready` flag is still
false afterwards. -/
theorem init_nonpostgres_raises (g : Meta) (s : String)
    (hs : ¬ s = "") (hr : g.ready = false)
    (hp : schemeIsPostgres s = false) :
    (∃ e, (Meta.init g (some s)).result = Except.error e) ∧
    (Meta.init g (some s)).state.ready = false := by
  cases hu : urlparse s with
  | error e =>
    rw [Meta.init_run_urlparse_err g s e hs hr hu]
    exact ⟨⟨e, rfl⟩, hr⟩
  | ok u =>
    have hp' : pyStartsWith u.scheme "postgres" = false := by
      simpa [schemeIsPostgres, hu] using hp
    cases hport : UrlParts.port u with
    | error e =>
      rw [Meta.init_run_port_err g s u e hs hr hu hport]
      exact ⟨⟨e, rfl⟩, hr⟩
    | ok p =>
      rw [Meta.init_run_nonpg g s u p hs hr hu hport hp']
      exact ⟨⟨sessionmakerErrMsg, rfl⟩, rfl⟩

/-- C1 (witness): the amended theorem applied at the spec's own example,
`mysql://host/db`, on the initial registry. -/
theorem init_nonpostgres_raises_witness :
    (¬ "mysql://host/db" = "") ∧
    Meta.initial.ready = false ∧
    schemeIsPostgres "mysql://host/db" = false ∧
    ((∃ e, (Meta.init Meta.initial (some "mysql://host/db")).result = Except.error e) ∧
     (Meta.init Meta.initial (some "mysql://host/db")).state.ready = false) :=
  ⟨by decide, rfl, by decide,
   init_nonpostgres_raises Meta.initial "mysql://host/db" (by decide) rfl (by decide)⟩

/-- C2 (counterexample): `postgres://host:abc/db` parses with scheme
`postgres`, yet on the unready initial registry `Meta.init` does not succeed:
the `Meta.DBPORT = url.port` assignment raises the port-cast `ValueError`
before the `postgres`/`ready` lines, so `ready` stays false. -/
theorem init_postgres_invalid_port_raises :
    urlparse "postgres://host:abc/db" = Except.ok
      { scheme := "postgres", netloc := "host:abc", path := "/db",
        username := none, password := none, portStr := some "abc" } ∧
    pyStartsWith "postgres" "postgres" = true ∧
    Meta.initial.ready = false ∧
    (Meta.init Meta.initial (some "postgres://host:abc/db")).result
      = Except.error "Port could not be cast to integer value as 'abc'" ∧
    (Meta.init Meta.initial (some "postgres://host:abc/db")).state.ready = false := by
  refine ⟨by decide, by decide, rfl, by decide, by decide⟩

/-- C2 (amended): for every connection string that `urlparse` parses, whose
scheme starts with `postgres`, and whose port component is absent or a valid
integer port (the `url.port` read does not raise), `Meta.init` on a not-ready
registry succeeds (returns `cls`), sets `ready` and `postgres`, and stores the
connection string, the path with its leading character stripped
(`url.path[1:]`), the username, and the port from the parsed URL. -/
theorem init_postgres_success_fields (g : Meta) (s : String)
    (u : UrlParts) (p : Option Nat)
    (hr : g.ready = false)
    (hu : urlparse s = Except.ok u)
    (hp : pyStartsWith u.scheme "postgres" = true)
    (hport : UrlParts.port u = Except.ok p) :
    (Meta.init g (some s)).result = Except.ok () ∧
    (Meta.init g (some s)).state.ready = true ∧
    (Meta.init g (some s)).state.postgres = true ∧
    (Meta.init g (some s)).state.conn_string = some s ∧
    (Meta.init g (some s)).state.DBNAME = some (pyDropFirst u.path) ∧
    (Meta.init g (some s)).state.DBUSER = u.username ∧
    (Meta.init g (some s)).state.DBPORT = p := by
  rw [Meta.init_run_pg g s u p (ne_empty_of_postgres_scheme s u hu hp) hr hu hport hp]
  exact ⟨rfl, rfl, rfl, rfl, rfl, rfl, rfl⟩

/-- C2 (witness): the theorem applied at the spec's example
`postgres://user:pw@localhost:5432/mydb`, together with the concrete values
of the parsed components: database name `mydb`, user `user`, port `5432`. -/
theorem init_postgres_success_fields_witness :
    Meta.initial.ready = false ∧
    urlparse "postgres://user:pw@localhost:5432/mydb" = Except.ok
      { scheme := "postgres", netloc := "user:pw@localhost:5432", path := "/mydb",
        username := some "user", password := some "pw", portStr := some "5432" } ∧
    pyStartsWith "postgres" "postgres" = true ∧
    UrlParts.port
      { scheme := "postgres", netloc := "user:pw@localhost:5432", path := "/mydb",
        username := some "user", password := some "pw", portStr := some "5432" }
      = Except.ok (some 5432) ∧
    ((Meta.init Meta.initial (some "postgres://user:pw@localhost:5432/mydb")).result = Except.ok () ∧
     (Meta.init Meta.initial (some "postgres://user:pw@localhost:5432/mydb")).state.ready = true ∧
     (Meta.init Meta.initial (some "postgres://user:pw@localhost:5432/mydb")).state.postgres = true ∧
     (Meta.init Meta.initial (some "postgres://user:pw@localhost:5432/mydb")).state.conn_string
        = some "postgres://user:pw@localhost:5432/mydb" ∧
     (Meta.init Meta.initial (some "postgres://user:pw@localhost:5432/mydb")).state.DBNAME
        = some (pyDropFirst
            ({ scheme := "postgres", netloc := "user:pw@localhost:5432", path := "/mydb",
               username := some "user", password := some "pw",
               portStr := some "5432" } : UrlParts).path) ∧
     (Meta.init Meta.initial (some "postgres://user:pw@localhost:5432/mydb")).state.DBUSER
        = ({ scheme := "postgres", netloc := "user:pw@localhost:5432", path := "/mydb",
             username := some "user", password := some "pw",
             portStr := some "5432" } : UrlParts).username ∧
     (Meta.init Meta.initial (some "postgres://user:pw@localhost:5432/mydb")).state.DBPORT
        = some 5432) ∧
    pyDropFirst "/mydb" = "mydb" :=
  ⟨rfl, by decide, by decide, by decide,
   init_postgres_success_fields Meta.initial "postgres://user:pw@localhost:5432/mydb"
     { scheme := "postgres", netloc := "user:pw@localhost:5432", path := "/mydb",
       username := some "user", password := some "pw", portStr := some "5432" }
     (some 5432) rfl (by decide) (by decide) (by decide),
   by decide⟩

/-- C3 (counterexample): both strings have scheme `postgres`, but the first
init at `postgres://host:abc/db` fails on the port read with `ready` still
false, so the second init runs the body and installs the SECOND string's
fields — the registry does not retain the first string. -/
theorem init_failed_first_not_idempotent :
    urlparse "postgres://host:abc/db" = Except.ok
      { scheme := "postgres", netloc := "host:abc", path := "/db",
        username := none, password := none, portStr := some "abc" } ∧
    urlparse "postgres://u2@h2/db2" = Except.ok
      { scheme := "postgres", netloc := "u2@h2", path := "/db2",
        username := some "u2", password := none, portStr := none } ∧
    Meta.initial.ready = false ∧
    (Meta.init Meta.initial (some "postgres://host:abc/db")).state.ready = false ∧
    (Meta.init (Meta.init Meta.initial (some "postgres://host:abc/db")).state
        (some "postgres://u2@h2/db2")).state.conn_string
      = some "postgres://u2@h2/db2" ∧
    ¬ (Meta.init (Meta.init Meta.initial (some "postgres://host:abc/db")).state
        (some "postgres://u2@h2/db2")).state
      = (Meta.init Meta.initial (some "postgres://host:abc/db")).state := by
  refine ⟨by decide, by decide, rfl, by decide, by decide, by decide⟩

/-- C3 (amended): once a FIRST SUCCESSFUL init has made the registry ready —
the first string parses, its port reads fine, and its scheme is
postgres-family — a second init with any valid postgres connection string
changes no state, performs no library call, and returns the handle; the
registry retains the first string. -/
theorem init_idempotent_after_ready (g : Meta) (s1 s2 : String)
    (u1 : UrlParts) (p1 : Option Nat)
    (hr : g.ready = false)
    (hu1 : urlparse s1 = Except.ok u1)
    (hp1 : pyStartsWith u1.scheme "postgres" = true)
    (hport1 : UrlParts.port u1 = Except.ok p1)
    (h2 : schemeIsPostgres s2 = true) :
    (Meta.init (Meta.init g (some s1)).state (some s2)).state
        = (Meta.init g (some s1)).state ∧
    (Meta.init (Meta.init g (some s1)).state (some s2)).result = Except.ok () ∧
    (Meta.init (Meta.init g (some s1)).state (some s2)).events = [] ∧
    (Meta.init g (some s1)).state.conn_string = some s1 ∧
    (Meta.init (Meta.init g (some s1)).state (some s2)).state.conn_string = some s1 := by
  rw [Meta.init_run_pg g s1 u1 p1 (ne_empty_of_postgres_scheme s1 u1 hu1 hp1) hr hu1 hport1 hp1]
  simp [Meta.init]

/-- C3 (witness): two different valid postgres strings; the second is
ignored. -/
theorem init_idempotent_after_ready_witness :
    Meta.initial.ready = false ∧
    urlparse "postgres://u1@h1:1111/db1" = Except.ok
      { scheme := "postgres", netloc := "u1@h1:1111", path := "/db1",
        username := some "u1", password := none, portStr := some "1111" } ∧
    pyStartsWith "postgres" "postgres" = true ∧
    UrlParts.port
      { scheme := "postgres", netloc := "u1@h1:1111", path := "/db1",
        username := some "u1", password := none, portStr := some "1111" }
      = Except.ok (some 1111) ∧
    schemeIsPostgres "postgresql://u2@h2:2222/db2" = true ∧
    ((Meta.init (Meta.init Meta.initial (some "postgres://u1@h1:1111/db1")).state
        (some "postgresql://u2@h2:2222/db2")).state
        = (Meta.init Meta.initial (some "postgres://u1@h1:1111/db1")).state ∧
     (Meta.init (Meta.init Meta.initial (some "postgres://u1@h1:1111/db1")).state
        (some "postgresql://u2@h2:2222/db2")).result = Except.ok () ∧
     (Meta.init (Meta.init Meta.initial (some "postgres://u1@h1:1111/db1")).state
        (some "postgresql://u2@h2:2222/db2")).events = [] ∧
     (Meta.init Meta.initial (some "postgres://u1@h1:1111/db1")).state.conn_string
        = some "postgres://u1@h1:1111/db1" ∧
     (Meta.init (Meta.init Meta.initial (some "postgres://u1@h1:1111/db1")).state
        (some "postgresql://u2@h2:2222/db2")).state.conn_string
        = some "postgres://u1@h1:1111/db1") :=
  ⟨rfl, by decide, by decide, by decide, by decide,
   init_idempotent_after_ready Meta.initial "postgres://u1@h1:1111/db1"
     "postgresql://u2@h2:2222/db2"
     { scheme := "postgres", netloc := "u1@h1:1111", path := "/db1",
       username := some "u1", password := none, portStr := some "1111" }
     (some 1111) rfl (by decide) (by decide) (by decide) (by decide)⟩

/-- C4: whenever the registry is not a successfully postgres-initialized one
(`postgres` false or `ready` false), `new_sessionmaker` raises the
`ConfigurationError` saying the Meta variables have not been initialized with
a postgres connection string, and constructs no engine. -/
theorem new_sessionmaker_requires_postgres_ready (g : Meta)
    (h : g.postgres = false ∨ g.ready = false) :
    (new_sessionmaker g).1 = Except.error sessionmakerErrMsg ∧
    (new_sessionmaker g).2 = [] := by
  have hn : ¬ (g.postgres = true ∧ g.ready = true) := by
    rcases h with h | h <;> simp [h]
  simp [new_sessionmaker, hn]

/-- C4 (witness): the theorem applied at the unconfigured initial state. -/
theorem new_sessionmaker_requires_postgres_ready_witness :
    (Meta.initial.postgres = false ∨ Meta.initial.ready = false) ∧
    ((new_sessionmaker Meta.initial).1 = Except.error sessionmakerErrMsg ∧
     (new_sessionmaker Meta.initial).2 = []) :=
  ⟨Or.inl rfl, new_sessionmaker_requires_postgres_ready Meta.initial (Or.inl rfl)⟩

/-- C5: the spec invariant — `engine` and `Session` exist iff `ready` — holds
in the initial state and is preserved by `Meta.init` from every state
satisfying it: every exception path (IPv6 parse error, port read error,
non-postgres scheme) leaves `Session`, `engine` and `ready` unchanged or
false, and `new_sessionmaker`/`Meta._init_db` never mutate the state. -/
theorem metaInv_init_preserved (g : Meta) (cs : Option String)
    (h : MetaInv g) :
    MetaInv Meta.initial ∧ MetaInv (Meta.init g cs).state := by
  refine ⟨by decide, ?_⟩
  match cs with
  | none => exact h
  | some s =>
    by_cases hs : s = ""
    · simpa [Meta.init, hs] using h
    · by_cases hr : g.ready = true
      · simpa [Meta.init, hr] using h
      · have hr' : g.ready = false := by simpa using hr
        cases hu : urlparse s with
        | error e =>
          rw [Meta.init_run_urlparse_err g s e hs hr' hu]
          exact h
        | ok u =>
          cases hport : UrlParts.port u with
          | error e =>
            rw [Meta.init_run_port_err g s u e hs hr' hu hport]
            exact h
          | ok p =>
            by_cases hp : pyStartsWith u.scheme "postgres" = true
            · rw [Meta.init_run_pg g s u p hs hr' hu hport hp]
              constructor <;> simp
            · have hp' : pyStartsWith u.scheme "postgres" = false := by simpa using hp
              rw [Meta.init_run_nonpg g s u p hs hr' hu hport hp']
              obtain ⟨he, hss⟩ := h
              constructor <;> simp_all [hr']

/-- C5 (witness): the preservation theorem applied across a successful
initialization from the unconfigured state. -/
theorem metaInv_init_preserved_witness :
    MetaInv Meta.initial ∧
    (MetaInv Meta.initial ∧
     MetaInv (Meta.init Meta.initial (some "postgres://user@localhost:5432/db")).state) :=
  ⟨by decide,
   metaInv_init_preserved Meta.initial (some "postgres://user@localhost:5432/db") (by decide)⟩

/-- C6 (counterexample): at `postgres://host:abc/db` — parsed scheme
`postgres` — the port `ValueError` at the `Meta.DBPORT = url.port` line fires
before the `Meta.postgres = url.scheme.startswith("postgres")` assignment, so
`isPostgres` stays false despite the postgres scheme, refuting the iff. -/
theorem init_invalid_port_flag_not_set :
    urlparse "postgres://host:abc/db" = Except.ok
      { scheme := "postgres", netloc := "host:abc", path := "/db",
        username := none, password := none, portStr := some "abc" } ∧
    pyStartsWith "postgres" "postgres" = true ∧
    Meta.initial.ready = false ∧
    (Meta.init Meta.initial (some "postgres://host:abc/db")).state.postgres = false := by
  refine ⟨by decide, by decide, rfl, by decide⟩

/-- C6 (amended): for every truthy connection string on a not-ready registry
for which `urlparse` and the `url.port` read succeed, `Meta.init` sets
`postgres` to exactly `url.scheme.startswith("postgres")` — true iff the
parsed scheme is equal to or prefixed by `postgres`; when parsing or the port
read raises, the assignment is never reached. -/
theorem init_postgres_flag_iff_scheme (g : Meta) (s : String)
    (u : UrlParts) (p : Option Nat)
    (hr : g.ready = false) (hs : ¬ s = "")
    (hu : urlparse s = Except.ok u)
    (hport : UrlParts.port u = Except.ok p) :
    (Meta.init g (some s)).state.postgres
      = pyStartsWith u.scheme "postgres" := by
  by_cases hp : pyStartsWith u.scheme "postgres" = true
  · rw [Meta.init_run_pg g s u p hs hr hu hport hp, hp]
  · have hp' : pyStartsWith u.scheme "postgres" = false := by simpa using hp
    rw [Meta.init_run_nonpg g s u p hs hr hu hport hp', hp']

/-- C6 (witness): `postgresql://` is accepted (prefixed by `postgres`), and
`postgres://` accepted while `mysql://` rejected, checked concretely. -/
theorem init_postgres_flag_iff_scheme_witness :
    Meta.initial.ready = false ∧
    (¬ "postgresql://h/d" = "") ∧
    urlparse "postgresql://h/d" = Except.ok
      { scheme := "postgresql", netloc := "h", path := "/d",
        username := none, password := none, portStr := none } ∧
    UrlParts.port
      { scheme := "postgresql", netloc := "h", path := "/d",
        username := none, password := none, portStr := none } = Except.ok none ∧
    (Meta.init Meta.initial (some "postgresql://h/d")).state.postgres
      = pyStartsWith "postgresql" "postgres" ∧
    pyStartsWith "postgresql" "postgres" = true ∧
    pyStartsWith "postgres" "postgres" = true ∧
    pyStartsWith "mysql" "postgres" = false :=
  ⟨rfl, by decide, by decide, by decide,
   init_postgres_flag_iff_scheme Meta.initial "postgresql://h/d"
     { scheme := "postgresql", netloc := "h", path := "/d",
       username := none, password := none, portStr := none }
     none rfl (by decide) (by decide) (by decide),
   by decide, by decide, by decide⟩

/-- C7: `Meta._init_db` on a not-ready registry raises the
`ConfigurationError` that the Meta variables have not been initialized, and
issues no schema-creation DDL (empty event trace); only a ready registry
reaches `create_all`. -/
theorem init_db_requires_ready (g : Meta) (h : g.ready = false) :
    (Meta.init_db g).1 = Except.error initDbErrMsg ∧
    (Meta.init_db g).2 = [] := by
  simp [Meta.init_db, h]

/-- C7 (witness): the theorem applied at the unconfigured initial state. -/
theorem init_db_requires_ready_witness :
    Meta.initial.ready = false ∧
    ((Meta.init_db Meta.initial).1 = Except.error initDbErrMsg ∧
     (Meta.init_db Meta.initial).2 = []) :=
  ⟨rfl, init_db_requires_ready Meta.initial rfl⟩

/-- C8 (counterexample): the claim says EVERY failing non-postgres init
leaves all five fields holding the new string's parsed components.  At
`mysql://h:abc/db` the program raises at the `Meta.DBPORT = url.port`
assignment, so `DBPORT` keeps its prior value (`1111` here) and the
`postgres` line is never reached; at `mysql://[::1/db` the `urlparse` call
itself raises, so NO field is updated (`conn_string` keeps `"old"`). -/
theorem init_failure_partial_update_cases :
    urlparse "mysql://h:abc/db" = Except.ok
      { scheme := "mysql", netloc := "h:abc", path := "/db",
        username := none, password := none, portStr := some "abc" } ∧
    pyStartsWith "mysql" "postgres" = false ∧
    ({ Meta.initial with conn_string := some "old", DBPORT := some 1111 } : Meta).ready
      = false ∧
    (Meta.init { Meta.initial with conn_string := some "old", DBPORT := some 1111 }
        (some "mysql://h:abc/db")).result
      = Except.error "Port could not be cast to integer value as 'abc'" ∧
    (Meta.init { Meta.initial with conn_string := some "old", DBPORT := some 1111 }
        (some "mysql://h:abc/db")).state.DBPORT = some 1111 ∧
    urlparse "mysql://[::1/db" = Except.error "Invalid IPv6 URL" ∧
    (Meta.init { Meta.initial with conn_string := some "old", DBPORT := some 1111 }
        (some "mysql://[::1/db")).result = Except.error "Invalid IPv6 URL" ∧
    (Meta.init { Meta.initial with conn_string := some "old", DBPORT := some 1111 }
        (some "mysql://[::1/db")).state
      = { Meta.initial with conn_string := some "old", DBPORT := some 1111 } := by
  refine ⟨by decide, by decide, rfl, by decide, by decide, by decide, by decide, by decide⟩

/-- C8 (amended): `Meta.init` is not atomic on failure — for non-postgres
strings on which `urlparse` and the `url.port` read succeed: the call raises,
yet afterwards `conn_string`, `DBNAME`, `DBUSER`, `DBPWD` and `DBPORT` hold
the new string and its parsed components (the assignments precede the
exception from `new_sessionmaker`), while `ready` and `postgres` are false.
(When the port read raises only the first four fields are updated; when
`urlparse` raises none is.) -/
theorem init_failure_not_atomic (g : Meta) (s : String)
    (u : UrlParts) (p : Option Nat)
    (hs : ¬ s = "") (hr : g.ready = false)
    (hu : urlparse s = Except.ok u)
    (hport : UrlParts.port u = Except.ok p)
    (hp : pyStartsWith u.scheme "postgres" = false) :
    (∃ e, (Meta.init g (some s)).result = Except.error e) ∧
    (Meta.init g (some s)).state.conn_string = some s ∧
    (Meta.init g (some s)).state.DBNAME = some (pyDropFirst u.path) ∧
    (Meta.init g (some s)).state.DBUSER = u.username ∧
    (Meta.init g (some s)).state.DBPWD = u.password ∧
    (Meta.init g (some s)).state.DBPORT = p ∧
    (Meta.init g (some s)).state.ready = false ∧
    (Meta.init g (some s)).state.postgres = false := by
  rw [Meta.init_run_nonpg g s u p hs hr hu hport hp]
  exact ⟨⟨sessionmakerErrMsg, rfl⟩, rfl, rfl, rfl, rfl, rfl, rfl, rfl⟩

/-- C8 (witness): from a registry that already holds other values, a failing
`init` with `mysql://u:p@h:7777/db` overwrites the parsed fields with the new
string's components. -/
theorem init_failure_not_atomic_witness :
    (¬ "mysql://u:p@h:7777/db" = "") ∧
    ({ Meta.initial with conn_string := some "old", DBNAME := some "olddb" } : Meta).ready
      = false ∧
    urlparse "mysql://u:p@h:7777/db" = Except.ok
      { scheme := "mysql", netloc := "u:p@h:7777", path := "/db",
        username := some "u", password := some "p", portStr := some "7777" } ∧
    UrlParts.port
      { scheme := "mysql", netloc := "u:p@h:7777", path := "/db",
        username := some "u", password := some "p", portStr := some "7777" }
      = Except.ok (some 7777) ∧
    pyStartsWith "mysql" "postgres" = false ∧
    ((∃ e, (Meta.init { Meta.initial with conn_string := some "old", DBNAME := some "olddb" }
        (some "mysql://u:p@h:7777/db")).result = Except.error e) ∧
     (Meta.init { Meta.initial with conn_string := some "old", DBNAME := some "olddb" }
        (some "mysql://u:p@h:7777/db")).state.conn_string = some "mysql://u:p@h:7777/db" ∧
     (Meta.init { Meta.initial with conn_string := some "old", DBNAME := some "olddb" }
        (some "mysql://u:p@h:7777/db")).state.DBNAME
        = some (pyDropFirst
            ({ scheme := "mysql", netloc := "u:p@h:7777", path := "/db",
               username := some "u", password := some "p",
               portStr := some "7777" } : UrlParts).path) ∧
     (Meta.init { Meta.initial with conn_string := some "old", DBNAME := some "olddb" }
        (some "mysql://u:p@h:7777/db")).state.DBUSER
        = ({ scheme := "mysql", netloc := "u:p@h:7777", path := "/db",
             username := some "u", password := some "p",
             portStr := some "7777" } : UrlParts).username ∧
     (Meta.init { Meta.initial with conn_string := some "old", DBNAME := some "olddb" }
        (some "mysql://u:p@h:7777/db")).state.DBPWD
        = ({ scheme := "mysql", netloc := "u:p@h:7777", path := "/db",
             username := some "u", password := some "p",
             portStr := some "7777" } : UrlParts).password ∧
     (Meta.init { Meta.initial with conn_string := some "old", DBNAME := some "olddb" }
        (some "mysql://u:p@h:7777/db")).state.DBPORT = some 7777 ∧
     (Meta.init { Meta.initial with conn_string := some "old", DBNAME := some "olddb" }
        (some "mysql://u:p@h:7777/db")).state.ready = false ∧
     (Meta.init { Meta.initial with conn_string := some "old", DBNAME := some "olddb" }
        (some "mysql://u:p@h:7777/db")).state.postgres = false) ∧
    pyDropFirst "/db" = "db" :=
  ⟨by decide, rfl, by decide, by decide, by decide,
   init_failure_not_atomic { Meta.initial with conn_string := some "old", DBNAME := some "olddb" }
     "mysql://u:p@h:7777/db"
     { scheme := "mysql", netloc := "u:p@h:7777", path := "/db",
       username := some "u", password := some "p", portStr := some "7777" }
     (some 7777) (by decide) rfl (by decide) (by decide) (by decide),
   by decide⟩

/-- C9 (counterexample): the claim pins the error on every non-postgres input
to `new_sessionmaker`'s message, but at `mysql://h:abc/db` (scheme `mysql`,
non-postgres) the raise happens earlier, at the `Meta.DBPORT = url.port`
read, with a different message; at `mysql://[::1/db` it is `urlparse`'s
`Invalid IPv6 URL`. -/
theorem init_nonpostgres_error_not_sessionmaker :
    urlparse "mysql://h:abc/db" = Except.ok
      { scheme := "mysql", netloc := "h:abc", path := "/db",
        username := none, password := none, portStr := some "abc" } ∧
    pyStartsWith "mysql" "postgres" = false ∧
    Meta.initial.ready = false ∧
    (Meta.init Meta.initial (some "mysql://h:abc/db")).result
      = Except.error "Port could not be cast to integer value as 'abc'" ∧
    ¬ ("Port could not be cast to integer value as 'abc'" : String) = sessionmakerErrMsg ∧
    (Meta.init Meta.initial (some "mysql://[::1/db")).result
      = Except.error "Invalid IPv6 URL" ∧
    ¬ ("Invalid IPv6 URL" : String) = sessionmakerErrMsg := by
  refine ⟨by decide, by decide, rfl, by decide, by decide, by decide, by decide⟩

/-- C9 (amended): `Meta.init`'s own invalid-connection-string branch is dead
code on every input that actually reaches the scheme check: on a not-ready
registry, for every truthy connection string on which `urlparse` and the
`url.port` read succeed and whose scheme is non-postgres, the error surfaced
is always `new_sessionmaker`'s message (it is invoked unconditionally before
init's own `if Meta.ready` check) and never
`"... is not a valid postgres connection string."`. -/
theorem init_dead_not_valid_branch (g : Meta) (s : String)
    (u : UrlParts) (p : Option Nat)
    (hs : ¬ s = "") (hr : g.ready = false)
    (hu : urlparse s = Except.ok u)
    (hport : UrlParts.port u = Except.ok p)
    (hp : pyStartsWith u.scheme "postgres" = false) :
    (Meta.init g (some s)).result = Except.error sessionmakerErrMsg ∧
    ∀ t, (Meta.init g (some s)).result = Except.error t → t ≠ notValidErrMsg s := by
  rw [Meta.init_run_nonpg g s u p hs hr hu hport hp]
  refine ⟨rfl, ?_⟩
  intro t ht
  have hts : t = sessionmakerErrMsg := by
    cases ht
    rfl
  rw [hts]
  exact sessionmakerErrMsg_ne_notValidErrMsg s

/-- C9 (witness): at `mysql://host/db`, the raised message is
`new_sessionmaker`'s, and concretely differs from the dead branch's
message. -/
theorem init_dead_not_valid_branch_witness :
    (¬ "mysql://host/db" = "") ∧
    Meta.initial.ready = false ∧
    urlparse "mysql://host/db" = Except.ok
      { scheme := "mysql", netloc := "host", path := "/db",
        username := none, password := none, portStr := none } ∧
    UrlParts.port
      { scheme := "mysql", netloc := "host", path := "/db",
        username := none, password := none, portStr := none } = Except.ok none ∧
    pyStartsWith "mysql" "postgres" = false ∧
    ((Meta.init Meta.initial (some "mysql://host/db")).result
        = Except.error sessionmakerErrMsg ∧
     ∀ t, (Meta.init Meta.initial (some "mysql://host/db")).result = Except.error t →
       t ≠ notValidErrMsg "mysql://host/db") ∧
    sessionmakerErrMsg ≠ notValidErrMsg "mysql://host/db" :=
  ⟨by decide, rfl, by decide, by decide, by decide,
   init_dead_not_valid_branch Meta.initial "mysql://host/db"
     { scheme := "mysql", netloc := "host", path := "/db",
       username := none, password := none, portStr := none }
     none (by decide) rfl (by decide) (by decide) (by decide),
   by decide⟩

/-- C10: `Meta.init` with `None` or with the empty string is a complete
no-op in every registry state: no exception, no state change, no library
call, and the handle (`cls`) is returned. -/
theorem init_none_or_empty_noop (g : Meta) :
    Meta.init g none = { state := g, result := Except.ok (), events := [] } ∧
    Meta.init g (some "") = { state := g, result := Except.ok (), events := [] } := by
  exact ⟨rfl, by simp [Meta.init]⟩
